import Mathlib

/-!
Verification development for the BikeSimulatorTools repository.

The Python sources are shallowly embedded as pure Lean functions:

* `traci` (the external simulator interface) is modelled by explicit
  environment records holding the values the code reads from the simulator
  and by lists of `Cmd` values representing the commands the code issues.
* Python floats are modelled by `ℚ`; the IEEE infinity used by
  `DynamicFlow.__init__` (`np.inf`) and by the default `Signal` pattern is
  modelled by the two-constructor type `XFloat`.
* Shapely geometry (polygon containment, arc-length projection) is an
  external library; a polygon is modelled by its containment predicate and
  arc-length projections of positions are taken as environment inputs.
* The simulator tick duration `traci.simulation.getDeltaT()` is modelled as
  a natural number of seconds.
-/

namespace BikeSim

/-- A command issued to the simulator through the traci interface. -/
inductive Cmd
  | setSpeed (veh : String) (v : ℚ)
  | slowDown (veh : String) (v dur : ℚ)
  | addVehicle (id : String)
  | addPerson (id : String)
  | removeVehicle (id : String)
  | removePersonStages (id : String)
  | subscribeContext (ego : String) (radius : ℚ)
  | setSignals (veh : String) (value : ℤ)
  deriving DecidableEq

/-- A Python float that is either an ordinary finite value or `np.inf`. -/
inductive XFloat
  | inf
  | fin (q : ℚ)
  deriving DecidableEq

/-- Adding `1` to an `XFloat` (`self.steps_since_last_vehicle += 1`):
infinity is absorbing. -/
def XFloat.bump : XFloat → XFloat
  | .inf => .inf
  | .fin q => .fin (q + 1)

/-- The comparison `time_step * steps >= headway` from `DynamicFlow.run`.
With `steps = inf` and a positive tick duration the product is `inf`, which
dominates every finite headway; with a zero tick duration the product is
`nan` and the comparison is false. -/
def XFloat.timesGe (dt : ℕ) (steps : XFloat) (h : ℚ) : Bool :=
  match steps with
  | .inf => decide (0 < dt)
  | .fin q => decide (h ≤ (dt : ℚ) * q)

/-- The comparison `t - last_changed >= pattern[i]` from `Signal.update`,
with the pattern entry on the left: `x ≤ q`.  An infinite duration is never
reached. -/
def XFloat.leQ (x : XFloat) (q : ℚ) : Bool :=
  match x with
  | .inf => false
  | .fin d => decide (d ≤ q)

/- ===================== Triggers.py ===================== -/

/-- The trigger events `ENTRY`, `EXIT`, `NO_CHANGE` (module constants of
`Triggers.py`). -/
inductive Event
  | ENTRY
  | EXIT
  | NO_CHANGE
  deriving DecidableEq

/-- `Trigger` from `Triggers.py`.  The shapely polygon is modelled by its
containment predicate `shape` (the result of `Point(p).within(polygon)`). -/
structure Trigger where
  id : String
  shape : ℚ × ℚ → Bool
  state : Bool
  last_check : ℚ
  last_event : Event

/-- `Trigger.__init__`: state starts `False`, the last-check time starts at
`-1` and the cached event starts as `NO_CHANGE`. -/
def Trigger.init (id : String) (shape : ℚ × ℚ → Bool) : Trigger :=
  { id := id, shape := shape, state := false, last_check := -1,
    last_event := Event.NO_CHANGE }

/-- `Trigger.includes`: the raw containment test, no mutation. -/
def Trigger.includes (tr : Trigger) (point : ℚ × ℚ) : Bool :=
  tr.shape point

/-- `Trigger.check`.  `sim_time` is the value of
`traci.simulation.getTime()`.  Returns the event together with the updated
trigger state. -/
def Trigger.check (tr : Trigger) (point : ℚ × ℚ) (sim_time : ℚ) :
    Event × Trigger :=
  if tr.last_check < sim_time then
    let new_state := tr.includes point
    let ev :=
      if new_state ≠ tr.state then
        (if new_state then Event.ENTRY else Event.EXIT)
      else Event.NO_CHANGE
    (ev, { tr with state := new_state, last_check := sim_time, last_event := ev })
  else
    (tr.last_event, tr)

/-- A sequence of `check` calls at one simulation time, returning all the
events and the final trigger state. -/
def Trigger.checkAll (tr : Trigger) (points : List (ℚ × ℚ)) (sim_time : ℚ) :
    List Event × Trigger :=
  match points with
  | [] => ([], tr)
  | p :: ps =>
    let r1 := tr.check p sim_time
    let r2 := r1.2.checkAll ps sim_time
    (r1.1 :: r2.1, r2.2)

/-- A key used to index a `Triggers` collection: a Python `str`, `int` or
any other object (identified by its type name). -/
inductive TriggerKey
  | str (s : String)
  | int (n : ℤ)
  | other (typeName : String)

/-- A raised Python exception relevant to `Triggers.__getitem__`. -/
inductive PyError
  | indexError (msg : String)
  deriving DecidableEq

/-- The `Triggers` collection from `Triggers.py`. -/
structure Triggers where
  trigger_list : List Trigger

/-- Python list indexing with negative-index wrap-around, raising
`IndexError` when out of range. -/
def pyIndex (l : List Trigger) (n : ℤ) : Except PyError Trigger :=
  let i : ℤ := if n < 0 then n + l.length else n
  if 0 ≤ i then
    match l.get? i.toNat with
    | some tr => .ok tr
    | none => .error (.indexError "list index out of range")
  else .error (.indexError "list index out of range")

/-- `Triggers.__getitem__`.  A successful lookup returns `some`; the
fallback branch for a key that is neither `str` nor `int` constructs a
`TypeError` but never raises it, so the function falls through and returns
Python `None`, modelled as `.ok none`. -/
def Triggers.getitem (ts : Triggers) (item : TriggerKey) :
    Except PyError (Option Trigger) :=
  match item with
  | .str s =>
    match ts.trigger_list.find? (fun tr => tr.id = s) with
    | some tr => .ok (some tr)
    | none => .error (.indexError "No trigger with id ")
  | .int n => (pyIndex ts.trigger_list n).map some
  | .other _ => .ok none

/- ===================== MultiConflict.py ===================== -/

/-- The runtime class of a target: `_ConflictTarget` itself (a MATCH
target) or its subclass `_WaitTarget`. -/
inductive TKind
  | conflict
  | wait
  deriving DecidableEq

/-- The `_ConflictTarget` named tuple of `MultiConflict.py` (stations are
arc-length projections onto the respective trajectories), together with its
runtime class. -/
structure ConflictTarget where
  ego_station : ℚ
  conflict_vehicle_station : ℚ
  release_point : ℚ
  kind : TKind
  deriving DecidableEq

/-- The mutable state of a `MultiConflict` manager. -/
structure MultiConflict where
  ego_id : String
  conflict_vehicle_id : String
  targets : List ConflictTarget
  release_point : ℚ
  active : Bool
  waiting : Bool
  paused : Bool
  deriving DecidableEq

/-- Values `MultiConflict.check` reads from the simulator on one tick.
Positions enter the control logic only through their arc-length
projections (`LineString.project`), so the projections are the inputs. -/
structure MCEnv where
  ego_station : ℚ
  cv_station : ℚ
  ego_speed : ℚ
  cv_speed : ℚ
  deriving DecidableEq

/-- `MultiConflict._control_conflict_target` (head target is a MATCH
target): command the conflict vehicle to `remaining distance / ego ETA`
while the ego is farther than the release point, otherwise pop the target
without issuing any command. -/
def MultiConflict.controlConflictTarget (mc : MultiConflict)
    (t : ConflictTarget) (env : MCEnv) : List Cmd × MultiConflict :=
  let ego_speed := if env.ego_speed = 0 then 1 / 10000 else env.ego_speed
  if t.release_point < t.ego_station - env.ego_station then
    let ego_eta := (t.ego_station - env.ego_station) / ego_speed
    let cv_remaining_dist := t.conflict_vehicle_station - env.cv_station
    let cv_desired_speed := cv_remaining_dist / ego_eta
    ([Cmd.setSpeed mc.conflict_vehicle_id cv_desired_speed], mc)
  else
    ([], { mc with targets := mc.targets.tail })

/-- `MultiConflict._control_wait_target` (head target is a `_WaitTarget`).
`setSpeed` with `-1` returns the vehicle to default simulator control. -/
def MultiConflict.controlWaitTarget (mc : MultiConflict)
    (t : ConflictTarget) (env : MCEnv) : List Cmd × MultiConflict :=
  if t.ego_station < env.ego_station then
    ([Cmd.setSpeed mc.conflict_vehicle_id (-1)],
     { mc with targets := mc.targets.tail, waiting := false })
  else if env.cv_station < t.conflict_vehicle_station - t.release_point then
    ([Cmd.setSpeed mc.conflict_vehicle_id (-1)], { mc with waiting := false })
  else
    let dur :=
      if 0 < env.cv_speed then
        max 0 ((t.conflict_vehicle_station - env.cv_station) / env.cv_speed / 2)
      else 0
    ([Cmd.slowDown mc.conflict_vehicle_id 0 dur], { mc with waiting := true })

/-- `MultiConflict.check`, called every simulation step. -/
def MultiConflict.check (mc : MultiConflict) (env : MCEnv) :
    List Cmd × MultiConflict :=
  let pauseCmds :=
    if mc.paused then [Cmd.slowDown mc.conflict_vehicle_id 0 2] else []
  match mc.targets with
  | [] =>
    if mc.active then
      (pauseCmds ++ [Cmd.setSpeed mc.conflict_vehicle_id (-1)],
       { mc with active := false })
    else (pauseCmds, mc)
  | t :: _ =>
    match t.kind with
    | .conflict =>
      let r := mc.controlConflictTarget t env
      (pauseCmds ++ r.1, r.2)
    | .wait =>
      let r := mc.controlWaitTarget t env
      (pauseCmds ++ r.1, r.2)

/- ===================== ConflictVehicles.py ===================== -/

/-- The `ConflictVehicle` object of `ConflictVehicles.py`: static lane data
computed in `__init__` plus the mutable deployment flags. -/
structure ConflictVehicle where
  name : String
  conflict_lane_length : ℚ
  conflict_lane_speed : ℚ
  release_point : ℚ
  deployed : Bool
  done : Bool
  deriving DecidableEq

/-- Values `ConflictVehicle.check` reads: its explicit arguments and the
simulator queries.  `ego_dist` is the Euclidean norm
`np.linalg.norm(ego_target - ego_pos)`. -/
structure CVEnv where
  ego_dist : ℚ
  ego_speed : ℚ
  lane_position : ℚ
  conflict_speed : ℚ
  deriving DecidableEq

/-- `ConflictVehicle.check`: deploy the vehicle when the ego ETA falls
within the conflict vehicle's total ETA, mark it done past the release
point, and otherwise adjust its speed, clamping a negative computed speed
to zero. -/
def ConflictVehicle.check (cv : ConflictVehicle) (env : CVEnv) :
    List Cmd × ConflictVehicle :=
  let ego_speed := if env.ego_speed = 0 then 1 / 10000 else env.ego_speed
  let ego_eta := env.ego_dist / ego_speed
  let conflict_eta_total := cv.conflict_lane_length / cv.conflict_lane_speed
  let deployCmds :=
    if !cv.deployed && decide (ego_eta ≤ conflict_eta_total) then
      [Cmd.addVehicle cv.name]
    else []
  let cv1 :=
    if !cv.deployed && decide (ego_eta ≤ conflict_eta_total) then
      { cv with deployed := true }
    else cv
  let cv2 :=
    if cv1.deployed && decide (env.ego_dist < cv1.release_point) then
      { cv1 with done := true }
    else cv1
  if cv2.deployed && !cv2.done then
    let conflict_dist := cv2.conflict_lane_length - env.lane_position
    let conflict_speed :=
      if env.conflict_speed = 0 then 1 / 10000 else env.conflict_speed
    let conflict_eta := conflict_dist / conflict_speed
    if 1 / 4 < |conflict_eta - ego_eta| then
      let new_conflict_speed := conflict_dist / ego_eta
      let clamped :=
        if new_conflict_speed < 0 then 0 else new_conflict_speed
      (deployCmds ++ [Cmd.slowDown cv2.name clamped 0], cv2)
    else (deployCmds, cv2)
  else (deployCmds, cv2)

/- ===================== DynamicFlows.py ===================== -/

/-- The emission model of a `DynamicFlow`: `__init__` validates that
exactly one of `probability` and `headway` is supplied. -/
inductive EmissionModel
  | prob (p : ℚ)
  | headway (h : ℚ)
  deriving DecidableEq

/-- The state of a `DynamicFlow` relevant to `run`, `enable`, `disable` and
`vaporize`.  `maxCount := none` models `maxCount = None` (`np.inf`). -/
structure Flow where
  name : String
  model : EmissionModel
  enabled : Bool
  steps_since_last_vehicle : XFloat
  count : ℕ
  maxCount : Option ℕ
  vaporizeOnDisable : Bool
  soft_vaporize : Bool
  vaporize_radius : ℚ
  ego_id : String
  pedestrianFlag : Bool
  deriving DecidableEq

/-- The state `DynamicFlow.__init__` leaves the flow in: the
ticks-since-last-emission counter starts at `np.inf` and the emission
counter at `0`. -/
def Flow.init (name : String) (model : EmissionModel) (enabled : Bool)
    (vaporizeOnDisable soft_vaporize : Bool) (vaporize_radius : ℚ)
    (ego_id : String) (pedestrianFlag : Bool) (maxCount : Option ℕ) : Flow :=
  { name := name, model := model, enabled := enabled,
    steps_since_last_vehicle := .inf, count := 0, maxCount := maxCount,
    vaporizeOnDisable := vaporizeOnDisable, soft_vaporize := soft_vaporize,
    vaporize_radius := vaporize_radius, ego_id := ego_id,
    pedestrianFlag := pedestrianFlag }

/-- `self.count < self.maxCount`, where `maxCount` may be `np.inf`. -/
def underCap (count : ℕ) (maxCount : Option ℕ) : Bool :=
  match maxCount with
  | none => true
  | some n => decide (count < n)

/-- Line 134 of `DynamicFlows.py`: the per-tick emission probability
`p = 1 - (1 - self.probability) ** time_step`. -/
def pTick (p : ℚ) (time_step : ℕ) : ℚ :=
  1 - (1 - p) ^ time_step

/-- Values `DynamicFlow.run` reads on one tick: the tick duration and the
`random.random()` draw. -/
structure RunEnv where
  time_step : ℕ
  rand : ℚ
  deriving DecidableEq

/-- The `send_vehicle` decision of `DynamicFlow.run`: headway reached for a
deterministic flow, a Bernoulli draw against `pTick` for a stochastic
one. -/
def sendDecision (model : EmissionModel) (steps : XFloat) (time_step : ℕ)
    (rand : ℚ) : Bool :=
  match model with
  | .headway h => XFloat.timesGe time_step steps h
  | .prob p => decide (rand < pTick p time_step)

/-- The id `self.name + "." + str(i)` of the `i`-th vehicle of a flow. -/
def flowVehId (name : String) (i : ℕ) : String :=
  name ++ "." ++ toString i

/-- The id `self.name + ".ped." + str(i)` of the `i`-th pedestrian. -/
def flowPedId (name : String) (i : ℕ) : String :=
  name ++ ".ped." ++ toString i

/-- `DynamicFlow.run`: advance the counter, decide emission, and if the
flow is enabled, the draw succeeded and the flow is under its cap, emit one
entity and reset the counter.  Type sampling and departure-position drawing
only choose attributes of the single created entity. -/
def Flow.run (f : Flow) (env : RunEnv) : List Cmd × Flow :=
  let f1 := { f with
    steps_since_last_vehicle := f.steps_since_last_vehicle.bump }
  let send := sendDecision f1.model f1.steps_since_last_vehicle
    env.time_step env.rand
  if f1.enabled && send && underCap f1.count f1.maxCount then
    let cmd :=
      if f1.pedestrianFlag then Cmd.addPerson (flowPedId f1.name f1.count)
      else Cmd.addVehicle (flowVehId f1.name f1.count)
    ([cmd], { f1 with steps_since_last_vehicle := .fin 0,
                      count := f1.count + 1 })
  else ([], f1)

/-- Values `DynamicFlow.vaporize` reads: the currently present person and
vehicle ids and the ids in the context subscription result around the ego
vehicle (the entities within `vaporize_radius`). -/
structure VapEnv where
  ped_list : List String
  veh_list : List String
  context_ids : List String
  deriving DecidableEq

/-- `DynamicFlow.vaporize`: unconditional removal of every still-present
entity the flow created, or — in soft mode — removal of those of the flow's
present vehicles that are neither the ego vehicle nor inside the context
subscription result. -/
def Flow.vaporize (f : Flow) (env : VapEnv) : List Cmd :=
  if !f.soft_vaporize then
    if f.pedestrianFlag then
      (List.range f.count).filterMap fun i =>
        if flowPedId f.name i ∈ env.ped_list then
          some (Cmd.removePersonStages (flowPedId f.name i))
        else none
    else
      (List.range f.count).filterMap fun i =>
        if flowVehId f.name i ∈ env.veh_list then
          some (Cmd.removeVehicle (flowVehId f.name i))
        else none
  else
    Cmd.subscribeContext f.ego_id f.vaporize_radius ::
    (List.range f.count).filterMap fun i =>
      if flowVehId f.name i ∈ env.veh_list ∧ flowVehId f.name i ≠ f.ego_id ∧
          flowVehId f.name i ∉ env.context_ids then
        some (Cmd.removeVehicle (flowVehId f.name i))
      else none

/-- `DynamicFlow.enable`. -/
def Flow.enable (f : Flow) : Flow :=
  { f with enabled := true }

/-- `DynamicFlow.disable`: clear the enabled flag and vaporize if the
removal policy requires it. -/
def Flow.disable (f : Flow) (env : VapEnv) : List Cmd × Flow :=
  let f1 := { f with enabled := false }
  (if f1.vaporizeOnDisable then f1.vaporize env else [], f1)

/-- One interaction with a flow: a simulation tick (`run`) or an
enable/disable call from the surrounding scenario logic. -/
inductive FlowAct
  | tick (env : RunEnv)
  | enable
  | disable (env : VapEnv)

/-- Apply one `FlowAct`. -/
def Flow.step (f : Flow) : FlowAct → List Cmd × Flow
  | .tick env => f.run env
  | .enable => ([], f.enable)
  | .disable env => f.disable env

/-- Apply a whole history of interactions, collecting all commands. -/
def Flow.runAll (f : Flow) : List FlowAct → List Cmd × Flow
  | [] => ([], f)
  | a :: as =>
    let r1 := f.step a
    let r2 := r1.2.runAll as
    (r1.1 ++ r2.1, r2.2)

/-- Whether a command creates an entity. -/
def isEmit : Cmd → Bool
  | .addVehicle _ => true
  | .addPerson _ => true
  | _ => false

/-- The number of entities a command list emits. -/
def emittedCount (cs : List Cmd) : ℕ :=
  cs.countP isEmit

/- ===================== VehicleSignalControl.py ===================== -/

/-- The `Signal` object: a bit position, a blink pattern of on/off
durations (the default non-blinking pattern is `[np.inf, 0]`), the enabled
flag and the blink-phase timing state. -/
structure Signal where
  bit : ℕ
  pattern : List XFloat
  enabled : Bool
  pattern_i : ℕ
  last_changed : ℚ
  state : Bool
  deriving DecidableEq

/-- `Signal.enable` (a no-op when already enabled); `t` is the current
simulation time. -/
def Signal.enable (s : Signal) (t : ℚ) : Signal :=
  if s.enabled then s
  else { s with enabled := true, pattern_i := 0, last_changed := t }

/-- `Signal.disable`. -/
def Signal.disable (s : Signal) : Signal :=
  { s with enabled := false }

/-- `Signal.update`: a disabled signal is off; an enabled signal advances
its blink phase cyclically when the current phase's duration has elapsed,
and is on exactly in the even phases. -/
def Signal.update (s : Signal) (t : ℚ) : Signal :=
  if !s.enabled then { s with state := false }
  else
    let s1 :=
      if (s.pattern.getD s.pattern_i (.fin 0)).leQ (t - s.last_changed) then
        { s with pattern_i := (s.pattern_i + 1) % s.pattern.length,
                 last_changed := t }
      else s
    { s1 with state := decide ((s1.pattern_i + 1) % 2 = 1) }

/-- One controlled channel of a `SignallingVehicle`.  The source keeps five
parallel lists (`signals`, `enable_triggers`, `disable_triggers`,
`enable_events`, `disable_events`), appended to in lockstep by
`add_controlled_signal`; they are modelled as one list of per-channel
records. -/
structure SignalChannel where
  signal : Signal
  enable_trigger : Option Trigger
  disable_trigger : Option Trigger
  enable_event : Event
  disable_event : Event

/-- The `SignallingVehicle` object. -/
structure SignallingVehicle where
  id : String
  channels : List SignalChannel

/-- Values `SignallingVehicle.update` reads on one tick.
`current_signals` is the value `traci.vehicle.getSignals` returns after the
reset command. -/
structure SigEnv where
  present : Bool
  current_signals : ℤ
  pos : ℚ × ℚ
  t : ℚ

/-- `current_signals | (1 << signal.bit)`. -/
def setBitInt (cur : ℤ) (b : ℕ) : ℤ :=
  Int.lor cur ((1 : ℤ) <<< (b : ℤ))

/-- `current_signals & ~(1 << signal.bit)`. -/
def clearBitInt (cur : ℤ) (b : ℕ) : ℤ :=
  Int.land cur (Int.lnot ((1 : ℤ) <<< (b : ℤ)))

/-- One iteration of the channel loop in `SignallingVehicle.update`: check
the gating triggers (mutating them), enable/disable and update the signal,
and fold the signal's bit into the accumulated mask. -/
def SignalChannel.step (c : SignalChannel) (pos : ℚ × ℚ) (t : ℚ) (cur : ℤ) :
    SignalChannel × ℤ :=
  let enr : Option Trigger × Signal :=
    match c.enable_trigger with
    | some tr =>
      let r := tr.check pos t
      (some r.2, if r.1 = c.enable_event then c.signal.enable t else c.signal)
    | none => (none, c.signal)
  let disr : Option Trigger × Signal :=
    match c.disable_trigger with
    | some tr =>
      let r := tr.check pos t
      (some r.2, if r.1 = c.disable_event then enr.2.disable else enr.2)
    | none => (none, enr.2)
  let sig := disr.2.update t
  let cur1 := if sig.state then setBitInt cur sig.bit else clearBitInt cur sig.bit
  ({ c with signal := sig, enable_trigger := enr.1, disable_trigger := disr.1 },
   cur1)

/-- The whole channel loop, threading the mask accumulator. -/
def stepChannels (cs : List SignalChannel) (pos : ℚ × ℚ) (t : ℚ) (cur : ℤ) :
    List SignalChannel × ℤ :=
  match cs with
  | [] => ([], cur)
  | c :: rest =>
    let r1 := c.step pos t cur
    let r2 := stepChannels rest pos t r1.2
    (r1.1 :: r2.1, r2.2)

/-- `SignallingVehicle.update`: skip entirely when the vehicle is absent;
otherwise issue the reset command `setSignals(id, -1)`, run the channel
loop on the read-back value, and issue one `setSignals` command with the
combined mask. -/
def SignallingVehicle.update (sv : SignallingVehicle) (env : SigEnv) :
    List Cmd × SignallingVehicle :=
  if !env.present then ([], sv)
  else
    let r := stepChannels sv.channels env.pos env.t env.current_signals
    ([Cmd.setSignals sv.id (-1), Cmd.setSignals sv.id r.2],
     { sv with channels := r.1 })

/-- Whether a command is a `setSignals` command. -/
def isSetSignals : Cmd → Bool
  | .setSignals _ _ => true
  | _ => false

/- ===================== concrete example states ===================== -/

/-- A synchronizer holding one MATCH target whose ego station is `100`,
conflict-vehicle station `50` and release distance `10`. -/
def mcC1 : MultiConflict :=
  { ego_id := "ego", conflict_vehicle_id := "cv",
    targets := [⟨100, 50, 10, .conflict⟩], release_point := 10,
    active := true, waiting := false, paused := false }

/-- A tick on which the ego vehicle is exactly the release distance (`10`)
away from its target station. -/
def envC1 : MCEnv :=
  { ego_station := 90, cv_station := 0, ego_speed := 5, cv_speed := 0 }

/-- A synchronizer holding one MATCH target with the conflict vehicle
already past its target station. -/
def mcC2 : MultiConflict :=
  { ego_id := "ego", conflict_vehicle_id := "cv",
    targets := [⟨100, 50, 10, .conflict⟩], release_point := 10,
    active := true, waiting := false, paused := false }

/-- A tick on which the conflict vehicle has overshot its station by `20`
while the ego vehicle still has `100` to go at speed `10`. -/
def envC2 : MCEnv :=
  { ego_station := 0, cv_station := 70, ego_speed := 10, cv_speed := 0 }

/-- A deployed, not-yet-released conflict vehicle. -/
def cvC2 : ConflictVehicle :=
  { name := "cv", conflict_lane_length := 100, conflict_lane_speed := 10,
    release_point := 20, deployed := true, done := false }

/-- A tick on which the conflict vehicle's ETA differs from the ego ETA by
more than a quarter second, so a speed adjustment is issued. -/
def cvEnvC2 : CVEnv :=
  { ego_dist := 50, ego_speed := 10, lane_position := 0, conflict_speed := 10 }

/-- A vehicular soft-vaporize flow that has emitted three vehicles. -/
def fC5 : Flow :=
  { name := "q", model := .prob (1/2), enabled := false,
    steps_since_last_vehicle := .fin 0, count := 3, maxCount := none,
    vaporizeOnDisable := true, soft_vaporize := true, vaporize_radius := 60,
    ego_id := "ego", pedestrianFlag := false }

/-- A simulator state in which `q.0` and `q.1` survive, `q.1` is inside the
proximity radius of the ego vehicle, and `q.2` has already left. -/
def vapEnvC5 : VapEnv :=
  { ped_list := [], veh_list := ["q.0", "q.1", "ego"],
    context_ids := ["q.1"] }

/-- An enabled stochastic flow capped at one vehicle. -/
def fC6 : Flow :=
  { name := "w", model := .prob (1/2), enabled := true,
    steps_since_last_vehicle := .fin 0, count := 0, maxCount := some 1,
    vaporizeOnDisable := false, soft_vaporize := false, vaporize_radius := 60,
    ego_id := "ego", pedestrianFlag := false }

/-- Two ticks whose random draws both fall below the per-tick emission
probability. -/
def actsC6 : List FlowAct :=
  [.tick ⟨1, 0⟩, .tick ⟨1, 0⟩]

/-- A synchronizer holding one WAIT target. -/
def mcC7 : MultiConflict :=
  { ego_id := "ego", conflict_vehicle_id := "cv",
    targets := [⟨50, 80, 5, .wait⟩], release_point := 10,
    active := true, waiting := true, paused := false }

/-- A tick on which the ego vehicle has passed its target station while
the conflict vehicle is still far from its own. -/
def envC7 : MCEnv :=
  { ego_station := 60, cv_station := 0, ego_speed := 3, cv_speed := 2 }

/-- A signalling vehicle with one ungated, disabled channel. -/
def svC8 : SignallingVehicle :=
  { id := "veh",
    channels := [{ signal := { bit := 0, pattern := [.inf, .fin 0],
                               enabled := false, pattern_i := 0,
                               last_changed := 0, state := false },
                   enable_trigger := none, disable_trigger := none,
                   enable_event := .ENTRY, disable_event := .ENTRY }] }

/-- A tick on which the vehicle is present in the simulation. -/
def sigEnvC8 : SigEnv :=
  { present := true, current_signals := 0, pos := (0, 0), t := 1 }

/- ===================== theorems ===================== -/

/-- A second `check` call at the same simulation time returns exactly the
result of the first call and leaves the trigger unchanged. -/
lemma Trigger.check_stable (tr : Trigger) (p q : ℚ × ℚ) (t : ℚ) :
    ((tr.check p t).2).check q t = ((tr.check p t).1, (tr.check p t).2) := by
  unfold Trigger.check
  by_cases h : tr.last_check < t <;> simp [h]

/-- A trigger that is a fixed point of `check` at time `t` stays fixed
through any sequence of calls at time `t`, always returning `e`. -/
lemma Trigger.checkAll_const (t : ℚ) (ps : List (ℚ × ℚ)) (tr1 : Trigger)
    (e : Event) (hst : ∀ q, tr1.check q t = (e, tr1)) :
    tr1.checkAll ps t = (List.replicate ps.length e, tr1) := by
  induction ps with
  | nil => simp [Trigger.checkAll]
  | cons q qs ih => simp [Trigger.checkAll, hst q, ih, List.replicate_succ]

/-- Claim C4: for every zone (`Trigger`) and every sequence of
`check(point)` calls made while the simulation time stays at one value,
every call after the first returns the same event the first call of that
tick computed, and the trigger's containment state, last-check timestamp
and cached event are left unchanged. -/
theorem C4_check_idempotent_per_tick (tr : Trigger) (p : ℚ × ℚ)
    (ps : List (ℚ × ℚ)) (t : ℚ) :
    (tr.checkAll (p :: ps) t).1 =
      (tr.check p t).1 :: List.replicate ps.length (tr.check p t).1 ∧
    (tr.checkAll (p :: ps) t).2 = (tr.check p t).2 := by
  have hst : ∀ q, ((tr.check p t).2).check q t =
      ((tr.check p t).1, (tr.check p t).2) :=
    fun q => Trigger.check_stable tr p q t
  have haux := Trigger.checkAll_const t ps (tr.check p t).2 (tr.check p t).1 hst
  constructor <;> simp [Trigger.checkAll, haux]

/-- Claim C9: indexing a `Triggers` collection with a key that is neither a
string nor an integer returns `None` and raises no exception — the
`TypeError` in the fallback branch is constructed but never raised. -/
theorem C9_getitem_other_returns_none (ts : Triggers) (typeName : String) :
    ts.getitem (.other typeName) = .ok none :=
  rfl

/-- Claim C3: the per-tick emission probability computed by
`DynamicFlow.run` for a probability-based flow equals
`1 - (1 - p) ^ time_step`; in particular for `p = 1/2` it is exactly `1/2`
at `time_step = 1` and exactly `3/4` at `time_step = 2`. -/
theorem C3_per_tick_probability (p : ℚ) (dt : ℕ) (steps : XFloat) (rand : ℚ) :
    sendDecision (.prob p) steps dt rand = decide (rand < pTick p dt) ∧
    pTick p dt = 1 - (1 - p) ^ dt ∧
    pTick (1/2) 1 = 1/2 ∧ pTick (1/2) 2 = 3/4 := by
  refine ⟨rfl, rfl, ?_, ?_⟩ <;> norm_num [pTick]

/-- Claim C1 counterexample: with the ego vehicle exactly the release
distance (`10`) from its MATCH target station, `check` pops the target on
that tick but issues no command at all — in particular it does not issue
the release command `setSpeed(cv, -1)` on that tick, contrary to the
claim. -/
theorem C1_counterexample :
    (mcC1.check envC1).2.targets = [] ∧
    Cmd.setSpeed "cv" (-1) ∉ (mcC1.check envC1).1 := by
  have h : mcC1.check envC1 = ([], { mcC1 with targets := [] }) := by
    norm_num [mcC1, envC1, MultiConflict.check,
      MultiConflict.controlConflictTarget]
  rw [h]
  simp

/-- Claim C1 (amended): with a MATCH head target, on the first tick at
which the ego vehicle's remaining distance to its target station equals the
release distance, `check` pops the target and issues no command; the
release of speed control (`setSpeed(cv, -1)`) is issued on the next tick's
`check`, once the queue is empty; and on every tick where the remaining
distance strictly exceeds the release distance the target is not popped. -/
theorem C1_match_release_next_tick (mc : MultiConflict) (env : MCEnv)
    (t : ConflictTarget)
    (htargets : mc.targets = [t]) (hkind : t.kind = .conflict)
    (hpaused : mc.paused = false) (hactive : mc.active = true)
    (hrel : t.ego_station - env.ego_station = t.release_point) :
    (mc.check env).1 = [] ∧ (mc.check env).2.targets = [] ∧
    (∀ env2 : MCEnv, ((mc.check env).2.check env2).1 =
      [Cmd.setSpeed mc.conflict_vehicle_id (-1)] ∧
      ((mc.check env).2.check env2).2.active = false) ∧
    (∀ env3 : MCEnv, t.release_point < t.ego_station - env3.ego_station →
      (mc.check env3).2.targets = mc.targets) := by
  obtain ⟨eid, cvid, tgts, rp, act, wai, pau⟩ := mc
  obtain ⟨tes, tcs, trp, tk⟩ := t
  simp only at htargets hkind hpaused hactive hrel
  subst htargets hkind hpaused hactive
  have hfirst :
      MultiConflict.check ⟨eid, cvid, [⟨tes, tcs, trp, .conflict⟩], rp,
        true, wai, false⟩ env =
      ([], ⟨eid, cvid, [], rp, true, wai, false⟩) := by
    simp [MultiConflict.check, MultiConflict.controlConflictTarget, hrel]
  refine ⟨by rw [hfirst], by rw [hfirst], ?_, ?_⟩
  · intro env2
    rw [hfirst]
    simp [MultiConflict.check]
  · intro env3 hgt
    simp [MultiConflict.check, MultiConflict.controlConflictTarget, hgt]

/-- Claim C1 witness: the amended statement evaluated on the concrete
one-target synchronizer `mcC1` at the tick `envC1` where the remaining
distance equals the release distance. -/
theorem C1_witness :
    (mcC1.check envC1).1 = [] ∧ (mcC1.check envC1).2.targets = [] ∧
    (∀ env2 : MCEnv, ((mcC1.check envC1).2.check env2).1 =
      [Cmd.setSpeed mcC1.conflict_vehicle_id (-1)] ∧
      ((mcC1.check envC1).2.check env2).2.active = false) ∧
    (∀ env3 : MCEnv,
      (10 : ℚ) < (100 : ℚ) - env3.ego_station →
      (mcC1.check env3).2.targets = mcC1.targets) :=
  C1_match_release_next_tick mcC1 envC1 ⟨100, 50, 10, .conflict⟩
    rfl rfl rfl rfl (by norm_num [envC1])

/-- Claim C2 counterexample: `MultiConflict._control_conflict_target`
performs no clamping — with the conflict vehicle `20` past its station and
an ego ETA of `10`, the quotient is `-2` and `check` commands exactly that
negative speed to the simulator. -/
theorem C2_counterexample :
    (mcC2.check envC2).1 = [Cmd.setSpeed "cv" (-2)] ∧ (-2 : ℚ) < 0 := by
  constructor
  · norm_num [mcC2, envC2, MultiConflict.check,
      MultiConflict.controlConflictTarget]
  · norm_num

/-- Claim C2 (amended): the clamping of a negative computed target speed to
zero happens in `ConflictVehicle.check` (the single-target conflict
module), whose commanded speeds are therefore never negative;
`MultiConflict._control_conflict_target` commands the raw quotient, which
can be negative (see the counterexample). -/
theorem C2_clamped_in_conflict_vehicle (cv : ConflictVehicle) (env : CVEnv)
    (veh : String) (v dur : ℚ)
    (hmem : Cmd.slowDown veh v dur ∈ (cv.check env).1) : 0 ≤ v := by
  unfold ConflictVehicle.check at hmem
  dsimp only at hmem
  split_ifs at hmem <;>
    simp only [List.mem_append, List.mem_singleton, List.mem_cons,
      List.not_mem_nil, or_false, false_or, Cmd.slowDown.injEq,
      reduceCtorEq] at hmem
  all_goals first
  | (obtain ⟨-, hv, -⟩ := hmem; subst hv; positivity)
  | (obtain ⟨-, hv, -⟩ := hmem; subst hv; linarith)

/-- Claim C2 witness: the amended statement applied to a concrete deployed
conflict vehicle for which `check` issues a speed-adjustment command. -/
theorem C2_witness : (0 : ℚ) ≤ 20 :=
  C2_clamped_in_conflict_vehicle cvC2 cvEnvC2 "cv" 20 0
    (by norm_num [cvC2, cvEnvC2, ConflictVehicle.check])

/-- Claim C7: with a WAIT head target, on any tick where the ego vehicle's
projected station strictly exceeds the target's ego station, `check` pops
the target and issues the release command `setSpeed(cv, -1)` on that same
tick, whatever the conflict vehicle's own station is. -/
theorem C7_wait_target_release (mc : MultiConflict) (env : MCEnv)
    (t : ConflictTarget) (rest : List ConflictTarget)
    (htargets : mc.targets = t :: rest) (hkind : t.kind = .wait)
    (hpassed : t.ego_station < env.ego_station) :
    Cmd.setSpeed mc.conflict_vehicle_id (-1) ∈ (mc.check env).1 ∧
    (mc.check env).2.targets = rest ∧
    (mc.check env).2.waiting = false := by
  obtain ⟨eid, cvid, tgts, rp, act, wai, pau⟩ := mc
  obtain ⟨tes, tcs, trp, tk⟩ := t
  simp only at htargets hkind hpassed
  subst htargets hkind
  simp [MultiConflict.check, MultiConflict.controlWaitTarget, hpassed]

/-- Claim C7 witness: the statement evaluated on the concrete WAIT-target
synchronizer `mcC7` on a tick where the ego vehicle has passed its station
while the conflict vehicle (station `0`, target `80`) has not reached its
own. -/
theorem C7_witness :
    Cmd.setSpeed mcC7.conflict_vehicle_id (-1) ∈ (mcC7.check envC7).1 ∧
    (mcC7.check envC7).2.targets = [] ∧
    (mcC7.check envC7).2.waiting = false :=
  C7_wait_target_release mcC7 envC7 ⟨50, 80, 5, .wait⟩ [] rfl rfl
    (by norm_num [envC7])

/-- Claim C5: for a soft-vaporize flow, `vaporize` issues a removal command
for exactly those of the flow's created vehicles (ids `name.i`,
`0 ≤ i < count`) that are present, are not the ego vehicle, and are not in
the proximity set around the ego vehicle; in particular it never removes
the ego vehicle nor any entity in the proximity set. -/
theorem C5_soft_vaporize_exact (f : Flow) (env : VapEnv)
    (hsoft : f.soft_vaporize = true) :
    (∀ v, Cmd.removeVehicle v ∈ f.vaporize env ↔
      ((∃ i, i < f.count ∧ v = flowVehId f.name i) ∧ v ∈ env.veh_list ∧
        v ≠ f.ego_id ∧ v ∉ env.context_ids)) ∧
    Cmd.removeVehicle f.ego_id ∉ f.vaporize env ∧
    (∀ v ∈ env.context_ids, Cmd.removeVehicle v ∉ f.vaporize env) := by
  have hmain : ∀ v, Cmd.removeVehicle v ∈ f.vaporize env ↔
      ((∃ i, i < f.count ∧ v = flowVehId f.name i) ∧ v ∈ env.veh_list ∧
        v ≠ f.ego_id ∧ v ∉ env.context_ids) := by
    intro v
    simp only [Flow.vaporize, hsoft, Bool.not_true, Bool.false_eq_true,
      if_false, List.mem_cons, reduceCtorEq, false_or, List.mem_filterMap,
      List.mem_range]
    constructor
    · rintro ⟨i, hi, heq⟩
      split_ifs at heq with hcond
      obtain ⟨h1, h2, h3⟩ := hcond
      obtain rfl : flowVehId f.name i = v := by
        simpa using heq
      exact ⟨⟨i, hi, rfl⟩, h1, h2, h3⟩
    · rintro ⟨⟨i, hi, rfl⟩, h1, h2, h3⟩
      exact ⟨i, hi, by simp [h1, h2, h3]⟩
  refine ⟨hmain, ?_, ?_⟩
  · intro hmem
    obtain ⟨-, -, hne, -⟩ := (hmain _).mp hmem
    exact hne rfl
  · intro v hv hmem
    obtain ⟨-, -, -, hnot⟩ := (hmain _).mp hmem
    exact hnot hv

/-- Claim C5 witness: on the concrete flow `fC5` (three created vehicles)
and simulator state `vapEnvC5`, soft vaporization removes the surviving
out-of-radius vehicle `q.0` but neither the ego vehicle nor the in-radius
vehicle `q.1`. -/
theorem C5_witness :
    Cmd.removeVehicle "q.0" ∈ fC5.vaporize vapEnvC5 ∧
    Cmd.removeVehicle "ego" ∉ fC5.vaporize vapEnvC5 ∧
    Cmd.removeVehicle "q.1" ∉ fC5.vaporize vapEnvC5 := by
  obtain ⟨hiff, hego, hctx⟩ := C5_soft_vaporize_exact fC5 vapEnvC5 rfl
  exact ⟨(hiff "q.0").mpr ⟨⟨0, by norm_num [fC5], by rfl⟩,
      by simp [vapEnvC5], by simp [fC5], by simp [vapEnvC5]⟩,
    hego, hctx "q.1" (by simp [vapEnvC5])⟩

/-- `run` never touches the cap. -/
lemma Flow.run_maxCount (f : Flow) (env : RunEnv) :
    (f.run env).2.maxCount = f.maxCount := by
  unfold Flow.run
  dsimp only
  split <;> rfl

/-- One `run` call increments the emission counter by exactly the number
of entities it emits (zero or one). -/
lemma Flow.run_count (f : Flow) (env : RunEnv) :
    (f.run env).2.count = f.count + emittedCount (f.run env).1 := by
  unfold Flow.run
  dsimp only
  split
  · cases hped : f.pedestrianFlag <;>
      simp [emittedCount, isEmit, List.countP_cons, hped]
  · simp [emittedCount]

/-- `run` emits only under the cap: a finite cap is never exceeded. -/
lemma Flow.run_cap (f : Flow) (env : RunEnv) (N : ℕ)
    (hmax : f.maxCount = some N) (hc : f.count ≤ N) :
    (f.run env).2.count ≤ N := by
  unfold Flow.run
  dsimp only
  split
  · next hcond =>
    have hcap : underCap f.count f.maxCount = true := by
      simpa using (Bool.and_elim_right hcond)
    rw [hmax] at hcap
    simp only [underCap, decide_eq_true_eq] at hcap
    simpa using hcap
  · simpa using hc

/-- `vaporize` only removes entities; it never emits. -/
lemma Flow.vaporize_no_emit (f : Flow) (env : VapEnv) :
    emittedCount (f.vaporize env) = 0 := by
  unfold Flow.vaporize emittedCount
  rw [List.countP_eq_zero]
  intro c hc
  split_ifs at hc with h1 h2
  · obtain ⟨i, -, hi⟩ := List.mem_filterMap.mp hc
    split_ifs at hi
    obtain rfl := Option.some.inj hi
    simp [isEmit]
  · obtain ⟨i, -, hi⟩ := List.mem_filterMap.mp hc
    split_ifs at hi
    obtain rfl := Option.some.inj hi
    simp [isEmit]
  · rcases List.mem_cons.mp hc with rfl | hc2
    · simp [isEmit]
    · obtain ⟨i, -, hi⟩ := List.mem_filterMap.mp hc2
      split_ifs at hi
      obtain rfl := Option.some.inj hi
      simp [isEmit]

/-- One interaction step: the counter grows by exactly the number of
entities emitted, and the cap is preserved and respected. -/
lemma Flow.step_count (f : Flow) (a : FlowAct) :
    (f.step a).2.count = f.count + emittedCount (f.step a).1 ∧
    (f.step a).2.maxCount = f.maxCount ∧
    ∀ N, f.maxCount = some N → f.count ≤ N → (f.step a).2.count ≤ N := by
  cases a with
  | tick env =>
    exact ⟨Flow.run_count f env, Flow.run_maxCount f env,
      fun N hm hc => Flow.run_cap f env N hm hc⟩
  | enable => simp [Flow.step, Flow.enable, emittedCount]
  | disable env =>
    refine ⟨?_, by simp [Flow.step, Flow.disable], ?_⟩
    · simp only [Flow.step, Flow.disable]
      split
      · rw [Flow.vaporize_no_emit]
        omega
      · simp [emittedCount]
    · intro N hm hc
      simpa [Flow.step, Flow.disable] using hc

/-- Over a whole interaction history, the counter equals its initial value
plus the number of entities emitted, and it never exceeds a finite cap. -/
lemma Flow.runAll_count (f : Flow) (acts : List FlowAct) :
    (f.runAll acts).2.count = f.count + emittedCount (f.runAll acts).1 ∧
    ∀ N, f.maxCount = some N → f.count ≤ N → (f.runAll acts).2.count ≤ N := by
  induction acts generalizing f with
  | nil => simp [Flow.runAll, emittedCount]
  | cons a as ih =>
    obtain ⟨h1, h2, h3⟩ := Flow.step_count f a
    obtain ⟨ih1, ih2⟩ := ih (f.step a).2
    constructor
    · simp only [Flow.runAll, emittedCount, List.countP_append]
      rw [← emittedCount, ← emittedCount, ih1, h1]
      ring
    · intro N hm hc
      exact ih2 N (h2.trans hm) (h3 N hm hc)

/-- Claim C6: a flow with a finite cap `maxCount = N` emits at most `N`
entities across any interaction history (any ticks, draws and
enable/disable calls): each emission increments the counter by exactly one,
the counter
never decreases, and `run` emits only when the counter is strictly below
the cap, so no `(N+1)`-th entity is ever emitted. -/
theorem C6_max_count_cap (f : Flow) (acts : List FlowAct) (N : ℕ)
    (hmax : f.maxCount = some N) (hcount : f.count = 0) :
    emittedCount (f.runAll acts).1 ≤ N ∧
    (f.runAll acts).2.count = f.count + emittedCount (f.runAll acts).1 := by
  obtain ⟨h1, h2⟩ := Flow.runAll_count f acts
  have hfin : (f.runAll acts).2.count ≤ N := h2 N hmax (by omega)
  constructor
  · omega
  · exact h1

/-- Claim C6 witness: the capped flow `fC6` (`maxCount = 1`) over two ticks
whose draws both pass: at most one entity is emitted. -/
theorem C6_witness :
    emittedCount (fC6.runAll actsC6).1 ≤ 1 ∧
    (fC6.runAll actsC6).2.count = fC6.count + emittedCount (fC6.runAll actsC6).1 :=
  C6_max_count_cap fC6 actsC6 1 rfl rfl

/-- Claim C10: a headway-based flow that is enabled and under its cap emits
an entity on the very first `run` call after construction, whatever the
configured headway, because the ticks-since-last-emission counter starts at
infinity. -/
theorem C10_first_run_emits (name ego : String) (hw radius : ℚ)
    (vod svap ped : Bool) (cap : Option ℕ) (env : RunEnv)
    (hdt : 0 < env.time_step) (hcap : underCap 0 cap = true) :
    emittedCount
      ((Flow.init name (.headway hw) true vod svap radius ego ped cap).run
        env).1 = 1 ∧
    ((Flow.init name (.headway hw) true vod svap radius ego ped cap).run
        env).2.count = 1 := by
  have hsend : sendDecision (.headway hw) XFloat.inf.bump env.time_step
      env.rand = true := by
    simp [sendDecision, XFloat.bump, XFloat.timesGe, hdt]
  cases ped <;>
    simp [Flow.init, Flow.run, hsend, hcap, emittedCount, isEmit,
      List.countP_cons]

/-- Claim C10 witness: a freshly constructed headway flow (headway `100`,
cap `5`) emits on its first `run` call with tick duration `1`. -/
theorem C10_witness :
    emittedCount
      ((Flow.init "h" (.headway 100) true false false 60 "ego" false
        (some 5)).run ⟨1, 0⟩).1 = 1 ∧
    ((Flow.init "h" (.headway 100) true false false 60 "ego" false
        (some 5)).run ⟨1, 0⟩).2.count = 1 :=
  C10_first_run_emits "h" "ego" 100 60 false false false (some 5) ⟨1, 0⟩
    (by decide) (by decide)

/-- One channel-loop iteration folds exactly the updated signal's bit into
the accumulator: set when the signal is on, cleared when it is off. -/
lemma SignalChannel.step_mask (c : SignalChannel) (pos : ℚ × ℚ) (t : ℚ)
    (cur : ℤ) :
    (c.step pos t cur).2 =
      (if (c.step pos t cur).1.signal.state then
        setBitInt cur (c.step pos t cur).1.signal.bit
      else clearBitInt cur (c.step pos t cur).1.signal.bit) :=
  rfl

/-- The mask produced by the channel loop equals the left fold of the
set-bit/clear-bit step over the updated channels, starting from the value
read back from the simulator. -/
lemma stepChannels_mask (cs : List SignalChannel) (pos : ℚ × ℚ) (t : ℚ)
    (cur : ℤ) :
    (stepChannels cs pos t cur).2 =
      (stepChannels cs pos t cur).1.foldl
        (fun acc c =>
          if c.signal.state then setBitInt acc c.signal.bit
          else clearBitInt acc c.signal.bit) cur := by
  induction cs generalizing cur with
  | nil => rfl
  | cons c rest ih =>
    simp only [stepChannels]
    rw [ih, List.foldl_cons, ← SignalChannel.step_mask]

/-- Claim C8 counterexample: on a tick where the owning vehicle is present,
`SignallingVehicle.update` issues two `setSignals` commands (the `-1` reset
and then the combined mask), not exactly one. -/
theorem C8_counterexample :
    (svC8.update sigEnvC8).1.countP isSetSignals = 2 ∧
    (svC8.update sigEnvC8).1.countP isSetSignals ≠ 1 := by
  have h : (svC8.update sigEnvC8).1.countP isSetSignals = 2 := by
    simp [SignallingVehicle.update, sigEnvC8, isSetSignals,
      List.countP_cons, List.countP_nil]
  exact ⟨h, by rw [h]; omega⟩

/-- Claim C8 (amended): on every tick in which the owning vehicle is
present, `update` issues exactly two `setSignals` commands: first the reset
command with value `-1`, then a single command carrying the combined
bitmask obtained by folding each enabled channel's bit in and clearing each
disabled channel's bit over the read-back register value — still not one
command per channel. -/
theorem C8_two_setSignals_commands (sv : SignallingVehicle) (env : SigEnv)
    (hp : env.present = true) :
    (sv.update env).1.countP isSetSignals = 2 ∧
    (sv.update env).1 =
      [Cmd.setSignals sv.id (-1),
       Cmd.setSignals sv.id
         ((sv.update env).2.channels.foldl
           (fun acc c =>
             if c.signal.state then setBitInt acc c.signal.bit
             else clearBitInt acc c.signal.bit) env.current_signals)] := by
  unfold SignallingVehicle.update
  rw [hp]
  refine ⟨by simp [isSetSignals, List.countP_cons, List.countP_nil], ?_⟩
  simp only [Bool.not_true, Bool.false_eq_true, if_false]
  rw [← stepChannels_mask]

/-- Claim C8 witness: the amended statement on the concrete one-channel
vehicle `svC8` on a tick where it is present. -/
theorem C8_witness :
    (svC8.update sigEnvC8).1.countP isSetSignals = 2 ∧
    (svC8.update sigEnvC8).1 =
      [Cmd.setSignals svC8.id (-1),
       Cmd.setSignals svC8.id
         ((svC8.update sigEnvC8).2.channels.foldl
           (fun acc c =>
             if c.signal.state then setBitInt acc c.signal.bit
             else clearBitInt acc c.signal.bit) sigEnvC8.current_signals)] :=
  C8_two_setSignals_commands svC8 sigEnvC8 rfl

end BikeSim
